import Mathlib

/-!
Verification of the ipynb-to-py converter (`ipynb2zed.py`).

The converter turns a parsed notebook document (a sequence of typed cells)
into one flat text file.  Each cell is emitted as a marker line
`# %% Cell n`, a body produced by a per-type formatter, and a blank
separator line.  The embedding below models the output as the string of
bytes written to the output file; each Python function that writes to the
file handle becomes a Lean function returning the string it writes.
-/

namespace IpynbZed

/-- Character-level suffix test: the semantics of the `endswith` method on
Python text strings (used by the converter only with the single-character
suffix of a newline). -/
def pyEndsWith (s t : String) : Bool :=
  t.data.isSuffixOf s.data

/-- Embedding of `process_code_cell`: writes the content verbatim, then one
extra newline exactly when the content does not already end with one. -/
def process_code_cell (cell_content : String) : String :=
  cell_content ++ (if pyEndsWith cell_content "\n" then "" else "\n")

/-- Embedding of `process_markdown_cell`: a triple-double-quote line, a
line with the md fence opener, the content with a newline ensured, a line
with the fence closer, and a closing triple-double-quote line. -/
def process_markdown_cell (cell_content : String) : String :=
  "\"\"\"\n" ++ ("```md\n" ++ (cell_content ++
    ((if pyEndsWith cell_content "\n" then "" else "\n") ++ ("```\n" ++ "\"\"\"\n"))))

/-- Embedding of `process_raw_cell`: a triple-double-quote line, the
content with a newline ensured, and a closing triple-double-quote line. -/
def process_raw_cell (cell_content : String) : String :=
  "\"\"\"\n" ++ (cell_content ++
    ((if pyEndsWith cell_content "\n" then "" else "\n") ++ "\"\"\"\n"))

/-- Embedding of `write_cell`: the marker line, then the dispatch on the
cell type (code / markdown / raw, anything else falls through and writes
nothing), then the blank separator line. -/
def write_cell (cell_number : Nat) (cell_type : String) (cell_content : String) : String :=
  ("# %% Cell " ++ (toString cell_number ++ "\n")) ++
  ((if cell_type = "code" then process_code_cell cell_content
    else if cell_type = "markdown" then process_markdown_cell cell_content
    else if cell_type = "raw" then process_raw_cell cell_content
    else "") ++ "\n")

/-- The JSON value found in a cell record under the `source` key: absent,
a single JSON string, or an array of string fragments. -/
inductive SourceField where
  | absent
  | str (s : String)
  | fragments (l : List String)
deriving DecidableEq

/-- A cell record as consumed by the converter: the optional `cell_type`
string and the optional `source` value. -/
structure CellJson where
  cell_type : Option String
  source : SourceField
deriving DecidableEq

/-- A parsed notebook document: a mapping whose `cells` key may be absent. -/
structure NotebookDoc where
  cells : Option (List CellJson)
deriving DecidableEq

/-- Python `''.join(x)` on the possible `source` values: joining an absent
source (defaulted to the empty list), joining a string (which iterates its
characters), or joining a list of fragments, always with no separator. -/
def pyJoinEmpty : SourceField → String
  | .absent => String.join []
  | .str s => String.join (s.data.map fun c => String.mk [c])
  | .fragments l => String.join l

/-- Embedding of `cell.get('cell_type', 'code')`. -/
def cellTypeOf (c : CellJson) : String :=
  c.cell_type.getD "code"

/-- Embedding of `''.join(cell.get('source', []))`. -/
def cellContentOf (c : CellJson) : String :=
  pyJoinEmpty c.source

/-- Embedding of the conversion loop `for i, cell in enumerate(cells):
write_cell(f, i+1, ...)`, carrying the 1-based position. -/
def writeCellsFrom : Nat → List CellJson → String
  | _, [] => ""
  | n, c :: rest => write_cell n (cellTypeOf c) (cellContentOf c) ++ writeCellsFrom (n + 1) rest

/-- Embedding of `notebook.get('cells', [])`. -/
def getCells (nb : NotebookDoc) : List CellJson :=
  nb.cells.getD []

/-- The whole byte content written to the output file for a parsed notebook. -/
def renderNotebook (nb : NotebookDoc) : String :=
  writeCellsFrom 1 (getCells nb)

/-- The exception kinds that `convert_notebook_to_py` catches: IO errors,
JSON decode errors, and the catch-all for anything else. -/
inductive ConvError where
  | ioError (msg : String)
  | jsonDecodeError (msg : String)
  | otherError (msg : String)

/-- Embedding of `convert_notebook_to_py`: the load step may fail (file
unreadable or JSON unparseable), the write step may fail (output
unwritable); every failure is caught at this boundary and turned into the
boolean result `false`, success returns `true`. -/
def convert_notebook_to_py (loadResult : Except ConvError NotebookDoc)
    (writeResult : String → Except ConvError Unit) : Bool :=
  match loadResult with
  | .error _ => false
  | .ok nb =>
    match writeResult (renderNotebook nb) with
    | .error _ => false
    | .ok _ => true

/-! Spec-side definitions, written from the specification text, to be
compared with the embedded code. -/

/-- Spec wording: the content with exactly one trailing newline ensured,
appended only if missing. -/
def ensureTrailingNewline (s : String) : String :=
  if pyEndsWith s "\n" then s else s ++ "\n"

/-- Spec wording: the marker line for 1-based position `n`, decimal, no
padding, followed by a single newline. -/
def markerLine (n : Nat) : String :=
  "# %% Cell " ++ (toString n ++ "\n")

/-- The formatted body of one cell, as selected by the dispatch of
`write_cell`. -/
def cellBody (c : CellJson) : String :=
  if cellTypeOf c = "code" then process_code_cell (cellContentOf c)
  else if cellTypeOf c = "markdown" then process_markdown_cell (cellContentOf c)
  else if cellTypeOf c = "raw" then process_raw_cell (cellContentOf c)
  else ""

/-- Spec wording of the output grammar: for each body in order, a marker
line carrying the next 1-based number, the body, and one blank line. -/
def blocksFrom : Nat → List String → String
  | _, [] => ""
  | n, b :: rest => (markerLine n ++ (b ++ "\n")) ++ blocksFrom (n + 1) rest

/-! Helper lemmas. -/

theorem flatten_map_singleton (l : List Char) :
    (List.map (fun c => [c]) l).flatten = l := by
  induction l with
  | nil => rfl
  | cons a t ih => simp [ih]

theorem pyJoinEmpty_str (s : String) : pyJoinEmpty (SourceField.str s) = s := by
  apply String.ext
  rw [pyJoinEmpty, String.data_join, List.map_map]
  have h : (String.data ∘ fun c : Char => String.mk [c]) = fun c : Char => [c] := rfl
  rw [h, flatten_map_singleton]

theorem write_cell_eq_block (n : Nat) (c : CellJson) :
    write_cell n (cellTypeOf c) (cellContentOf c) = markerLine n ++ (cellBody c ++ "\n") := rfl

theorem writeCellsFrom_eq_blocksFrom (cells : List CellJson) (n : Nat) :
    writeCellsFrom n cells = blocksFrom n (cells.map cellBody) := by
  induction cells generalizing n with
  | nil => rfl
  | cons c rest ih =>
    rw [writeCellsFrom, List.map, blocksFrom, write_cell_eq_block, ih]

/-! Claim theorems. -/

/-- C1, counterexample: a cell of type `unknown` is not written like a
code cell with the same content and position: the dispatcher has no branch
for it, so its content is dropped. -/
theorem write_cell_unknown_type_ne_code :
    ¬ (write_cell 1 "unknown" "x = 1" = write_cell 1 "code" "x = 1") := by
  decide

/-- C1, amended: for every cell whose type is none of `code`, `markdown`,
`raw`, `write_cell` emits the marker line followed directly by the blank
separator line; the content is discarded, not formatted as code. -/
theorem write_cell_unknown_type_drops_content (n : Nat) (t c : String)
    (h1 : ¬ t = "code") (h2 : ¬ t = "markdown") (h3 : ¬ t = "raw") :
    write_cell n t c = markerLine n ++ "\n" := by
  rw [write_cell, markerLine, if_neg h1, if_neg h2, if_neg h3, String.empty_append]

/-- C1, witness for the amended theorem at a concrete unknown type. -/
theorem write_cell_unknown_type_drops_content_witness :
    write_cell 1 "unknown" "x = 1" = markerLine 1 ++ "\n" :=
  write_cell_unknown_type_drops_content 1 "unknown" "x = 1"
    (by decide) (by decide) (by decide)

/-- C2, counterexample: for a code cell with empty content the emission is
not just the marker line plus one blank line, because the empty string
does not end with a newline and the formatter therefore writes one. -/
theorem write_cell_empty_code_not_single_blank :
    ¬ (write_cell 1 "code" "" = "# %% Cell 1\n" ++ "\n") := by
  decide

/-- C2, amended: for a code cell with empty content the formatter
contributes exactly one newline (the empty string does not end with a
newline), so the whole emission is the marker line followed by two blank
lines. -/
theorem write_cell_empty_code_two_blank_lines (n : Nat) :
    write_cell n "code" "" = markerLine n ++ ("\n" ++ "\n") := by
  have h : pyEndsWith "" "\n" = false := by decide
  rw [write_cell, markerLine, if_pos rfl, process_code_cell, h]
  rw [if_neg (by simp), String.empty_append]

/-- C3: the conversion output for a document with k cells is exactly, in
order for positions 1 through k, the marker line of that position, then
the formatted body of that cell, then one blank separator line; the body
list has one entry per cell. -/
theorem conversion_emits_markers_one_to_k (nb : NotebookDoc) :
    renderNotebook nb = blocksFrom 1 ((getCells nb).map cellBody) ∧
    ((getCells nb).map cellBody).length = (getCells nb).length := by
  constructor
  · rw [renderNotebook, writeCellsFrom_eq_blocksFrom]
  · exact List.length_map _ _

/-- C4: the code formatter emits content verbatim with exactly one newline
appended if and only if the content does not already end in a newline,
which is precisely the ensure-trailing-newline function of the spec. -/
theorem process_code_cell_verbatim (content : String) :
    process_code_cell content = ensureTrailingNewline content := by
  rw [process_code_cell, ensureTrailingNewline]
  cases h : pyEndsWith content "\n" with
  | false => rw [if_neg (by simp [h]), if_neg (by simp [h])]
  | true => rw [if_pos (by simp [h]), if_pos (by simp [h]), String.append_empty]

/-- C5: the markdown formatter emits, in strict order, a line of three
double quotes, a line with the md fence opener, the content with one
trailing newline ensured, a line with the fence closer, and a closing line
of three double quotes. -/
theorem process_markdown_cell_layout (content : String) :
    process_markdown_cell content =
      "\"\"\"\n" ++ ("```md\n" ++ (ensureTrailingNewline content ++ ("```\n" ++ "\"\"\"\n"))) := by
  rw [process_markdown_cell, ensureTrailingNewline]
  cases h : pyEndsWith content "\n" with
  | false =>
    rw [if_neg (by simp [h]), if_neg (by simp [h]), String.append_assoc]
  | true =>
    rw [if_pos (by simp [h]), if_pos (by simp [h]), String.empty_append]

/-- C6: the raw formatter emits a three-double-quote line, the content
with one trailing newline ensured, and a closing three-double-quote line;
this equals the markdown formatter output on the same content with the md
fence opener line and the fence closer line removed. -/
theorem process_raw_cell_layout (content : String) :
    ∃ mid, mid = ensureTrailingNewline content ∧
      process_raw_cell content = "\"\"\"\n" ++ (mid ++ "\"\"\"\n") ∧
      process_markdown_cell content =
        "\"\"\"\n" ++ ("```md\n" ++ (mid ++ ("```\n" ++ "\"\"\"\n")))  := by
  refine ⟨ensureTrailingNewline content, rfl, ?_, ?_⟩
  · rw [process_raw_cell, ensureTrailingNewline]
    cases h : pyEndsWith content "\n" with
    | false =>
      rw [if_neg (by simp [h]), if_neg (by simp [h]), String.append_assoc]
    | true =>
      rw [if_pos (by simp [h]), if_pos (by simp [h]), String.empty_append]
  · rw [process_markdown_cell, ensureTrailingNewline]
    cases h : pyEndsWith content "\n" with
    | false =>
      rw [if_neg (by simp [h]), if_neg (by simp [h]), String.append_assoc]
    | true =>
      rw [if_pos (by simp [h]), if_pos (by simp [h]), String.empty_append]

/-- C7: the conversion boundary never propagates a failure: the result is
always a boolean, and it is `true` exactly when the load step produced a
document and writing the rendered output succeeded; every load or write
failure yields the result `false` instead of an exception. -/
theorem convert_catches_all_failures (load : Except ConvError NotebookDoc)
    (w : String → Except ConvError Unit) :
    (convert_notebook_to_py load w = true ∨ convert_notebook_to_py load w = false) ∧
    (convert_notebook_to_py load w = true ↔
      ∃ nb, load = Except.ok nb ∧ w (renderNotebook nb) = Except.ok ()) := by
  constructor
  · cases convert_notebook_to_py load w
    · exact Or.inr rfl
    · exact Or.inl rfl
  · cases load with
    | error e => simp [convert_notebook_to_py]
    | ok nb =>
      cases h : w (renderNotebook nb) with
      | error e => simp [convert_notebook_to_py, h]
      | ok u => simp [convert_notebook_to_py, h]

/-- C8: for a document that parses as a mapping without a `cells` field,
the rendered output is the empty string (a zero-byte output file) and the
conversion reports success. -/
theorem convert_missing_cells_success (w : String → Except ConvError Unit)
    (h : w "" = Except.ok ()) :
    renderNotebook (NotebookDoc.mk none) = "" ∧
    convert_notebook_to_py (Except.ok (NotebookDoc.mk none)) w = true := by
  refine ⟨rfl, ?_⟩
  have hr : renderNotebook (NotebookDoc.mk none) = "" := rfl
  rw [convert_notebook_to_py, hr, h]

/-- C8, witness: a write step that accepts the empty string. -/
theorem convert_missing_cells_success_witness :
    renderNotebook (NotebookDoc.mk none) = "" ∧
    convert_notebook_to_py (Except.ok (NotebookDoc.mk none))
      (fun _ => Except.ok ()) = true :=
  convert_missing_cells_success (fun _ => Except.ok ()) rfl

/-- C9: the rendered output bytes are a deterministic function of the
parsed input document: equal inputs give byte-identical outputs, so
re-running the conversion on the same input reproduces the same file. -/
theorem convert_deterministic (nb₁ nb₂ : NotebookDoc) (h : nb₁ = nb₂) :
    renderNotebook nb₁ = renderNotebook nb₂ := by
  rw [h]

/-- C9, witness at a concrete one-cell document. -/
theorem convert_deterministic_witness :
    renderNotebook (NotebookDoc.mk (some [CellJson.mk (some "code")
      (SourceField.fragments ["x = 1\n"])])) =
    renderNotebook (NotebookDoc.mk (some [CellJson.mk (some "code")
      (SourceField.fragments ["x = 1\n"])])) :=
  convert_deterministic _ _ rfl

/-- C10: when a cell's `source` field holds a single string instead of a
fragment list, the separator-free join iterates the characters of the
string and reassembles it, so the cell content is that string unchanged. -/
theorem string_source_joined_identically (ct : Option String) (s : String) :
    cellContentOf (CellJson.mk ct (SourceField.str s)) = s := by
  rw [cellContentOf]
  exact pyJoinEmpty_str s

end IpynbZed
